import Mathlib

/-!
Shallow embedding of the multi-round tool-orchestration engine of
`backend/ai_generator.py` (class `AIGenerator`), together with a
spec-modelled Search Capability (its source file `search_tools.py` is not
part of the sources; only its tests are).

Modelling conventions:
* The Anthropic client is an oracle `provider : Nat → Response` giving the
  reply to the k-th model call of the query (0-based), and the tool manager
  is `execute_tool : String → ToolArgs → Except String String`, where
  `Except.error e` embeds a Python exception whose `str` is `e`.
* A Python `dict` of API parameters is the structure `ApiParams`; the
  `tools` field is `Option (List ToolDef)` where `none` means the key is
  absent, and Python's truthiness test `if tools:` is `toolsTruthy`.
* `generate_response` returns `Option String`: `none` embeds an uncaught
  exception (for example `response.content[0].text` on an empty content
  list, or on a leading non-text block).
* Runs are instrumented: every model request built is logged in order in
  `calls`, and every round of tool dispatch logs its dispatches (one entry
  per `execute_tool` call, in call order) as one group in `rounds`.
-/

namespace RagChatbot

/-- Arguments of one tool invocation (`content_block.input`, passed as
keyword arguments to `execute_tool`). -/
abbrev ToolArgs := List (String × String)

/-- A tool schema, opaque to the engine (it is passed through verbatim to
the model provider). -/
abbrev ToolDef := String

/-- A content block of a model reply: a text block or a tool-use block
(`content_block.type` is "text" or "tool_use"). -/
inductive ContentBlock where
  | text (s : String)
  | toolUse (name : String) (id : String) (input : ToolArgs)
  deriving DecidableEq, Repr

/-- A model reply: `stop_reason` and the ordered content blocks. -/
structure Response where
  stop_reason : String
  content : List ContentBlock
  deriving DecidableEq, Repr

/-- One `tool_result` dict appended by `_execute_tools_for_response`. -/
structure ToolResult where
  tool_use_id : String
  content : String
  deriving DecidableEq, Repr

/-- The payload of one transcript message: the user query string, a
reply's content blocks (assistant turn), or a list of tool results. -/
inductive MessageContent where
  | text (s : String)
  | blocks (bs : List ContentBlock)
  | toolResults (rs : List ToolResult)
  deriving DecidableEq, Repr

/-- One message of the transcript (`{"role": ..., "content": ...}`). -/
structure Message where
  role : String
  content : MessageContent
  deriving DecidableEq, Repr

/-- The parameters of one `client.messages.create` request (the fixed
model/temperature/max_tokens fields are omitted; `tools = none` means the
`tools` key is absent, `tool_choice_auto` whether `tool_choice` is set). -/
structure ApiParams where
  messages : List Message
  system : String
  tools : Option (List ToolDef)
  tool_choice_auto : Bool
  deriving DecidableEq, Repr

/-- One dispatch through the tool manager: tool name and arguments. -/
abbrev Dispatch := String × ToolArgs

/-- The external collaborators of one query: the model provider (reply to
the k-th call) and the tool manager's `execute_tool`. -/
structure Env where
  provider : Nat → Response
  execute_tool : String → ToolArgs → Except String String

/-- Python's truthiness of the optional `tools` argument: `None` and the
empty list are falsy. -/
def toolsTruthy : Option (List ToolDef) → Bool
  | none => false
  | some ts => !ts.isEmpty

/-- The static `AIGenerator.SYSTEM_PROMPT` (abbreviated text; only its identity as a
fixed string matters to the engine). -/
def SYSTEM_PROMPT : String :=
  "You are an AI assistant specialized in course materials and educational content with access to search and outline tools for course information."

/-- The system content built at the top of `generate_response`:
the static prompt, with the conversation history appended when it is
truthy (present and non-empty). -/
def systemContent (conversation_history : Option String) : String :=
  match conversation_history with
  | some h => if h ≠ "" then SYSTEM_PROMPT ++ "\n\nPrevious conversation:\n" ++ h else SYSTEM_PROMPT
  | none => SYSTEM_PROMPT

/-- The request built inline in `generate_response` (lines 94-103): base
params plus messages and system, and the `tools`/`tool_choice` keys added
only when `tools` is truthy. -/
def initialApiParams (query : String) (system : String)
    (tools : Option (List ToolDef)) : ApiParams :=
  if toolsTruthy tools then
    { messages := [⟨"user", .text query⟩], system := system,
      tools := tools, tool_choice_auto := true }
  else
    { messages := [⟨"user", .text query⟩], system := system,
      tools := none, tool_choice_auto := false }

/-- Embeds `_make_api_call` (lines 223-233): builds the request dict; the
`tools`/`tool_choice` keys are added only when `tools` is truthy. -/
def makeApiCallParams (messages : List Message) (system_prompt : String)
    (tools : Option (List ToolDef)) : ApiParams :=
  if toolsTruthy tools then
    { messages := messages, system := system_prompt,
      tools := tools, tool_choice_auto := true }
  else
    { messages := messages, system := system_prompt,
      tools := none, tool_choice_auto := false }

/-- Embeds `_has_tool_use` (lines 187-191). -/
def has_tool_use (response : Response) : Bool :=
  response.stop_reason == "tool_use" &&
    response.content.any (fun b => match b with | .toolUse _ _ _ => true | _ => false)

/-- The first text block's content of a reply, if any. -/
def firstText (response : Response) : Option String :=
  response.content.findSome? (fun b => match b with | .text s => some s | _ => none)

/-- Embeds `_extract_text_response` (lines 193-198): the first text block's
content, else the fixed sentinel. -/
def extract_text_response (response : Response) : String :=
  match firstText response with
  | some s => s
  | none => "No text response available"

/-- Outcome of `_execute_tools_for_response`: the accumulated
`tool_results`, the error string of the raised exception (if any), and the
dispatches actually performed (one per `execute_tool` call, in order). -/
structure ExecOutcome where
  results : List ToolResult
  error : Option String
  dispatched : List Dispatch
  deriving DecidableEq, Repr

/-- The loop body of `_execute_tools_for_response`: walk the content
blocks, dispatching each tool-use block; on the first raising dispatch,
stop and return the results accumulated so far with the error string. -/
def executeToolsLoop (env : Env) : List ContentBlock → List ToolResult →
    List Dispatch → ExecOutcome
  | [], acc, ds => ⟨acc.reverse, none, ds.reverse⟩
  | .text _ :: rest, acc, ds => executeToolsLoop env rest acc ds
  | .toolUse name id input :: rest, acc, ds =>
    match env.execute_tool name input with
    | .error e => ⟨acc.reverse, some e, ((name, input) :: ds).reverse⟩
    | .ok r => executeToolsLoop env rest (⟨id, r⟩ :: acc) ((name, input) :: ds)

/-- Embeds `_execute_tools_for_response` (lines 200-221). -/
def execute_tools_for_response (env : Env) (response : Response) : ExecOutcome :=
  executeToolsLoop env response.content [] []

set_option linter.unusedVariables false in
/-- Embeds `_handle_tool_error` (lines 235-243): the last reply's extracted text
when truthy and different from the sentinel, else the fixed apology. Note
the `error` argument is never used in the result. -/
def handle_tool_error (error : String) (last_response : Response) : String :=
  let text_response := extract_text_response last_response
  if text_response ≠ "" && text_response ≠ "No text response available" then
    text_response
  else
    "I encountered an error while searching for information. Please try rephrasing your question."

/-- Result of the round loop: the returned answer string, the model
requests built by the loop in order, and the per-round dispatch groups in
order. -/
structure LoopOut where
  answer : String
  calls : List ApiParams
  rounds : List (List Dispatch)
  deriving DecidableEq, Repr

/-- Result of a run of the engine: the answer (`none` embeds an uncaught
exception), the model requests in order, and the per-round dispatch
groups in order. -/
structure Run where
  answer : Option String
  calls : List ApiParams
  rounds : List (List Dispatch)
  deriving DecidableEq, Repr

/-- The `for round_num in range(1, max_rounds + 1)` loop of
`_handle_sequential_tool_execution` (lines 139-175). `remaining` is
`max_rounds - round_num + 1` (so `remaining = 1` means this is the last
round); `k` is the number of model calls already made. Returns the answer
and the calls and dispatch rounds performed by the loop. -/
def seqLoop (env : Env) (system : String) (btools : Option (List ToolDef)) :
    Nat → Nat → Response → List Message → LoopOut
  | _, 0, current, _ =>
    -- Fallback after the loop (line 175) - not reached when max_rounds ≥ 1
    ⟨extract_text_response current, [], []⟩
  | k, remaining + 1, current, messages =>
    if has_tool_use current then
      let messages1 := messages ++ [⟨"assistant", .blocks current.content⟩]
      let out := execute_tools_for_response env current
      match out.error with
      | some e => ⟨handle_tool_error e current, [], [out.dispatched]⟩
      | none =>
        let messages2 := messages1 ++ [⟨"user", .toolResults out.results⟩]
        if remaining = 0 then
          -- round_num == max_rounds: final call without tools
          let params := makeApiCallParams messages2 system none
          let final := env.provider k
          ⟨extract_text_response final, [params], [out.dispatched]⟩
        else
          let params := makeApiCallParams messages2 system btools
          let next := env.provider k
          let rest := seqLoop env system btools (k + 1) remaining next messages2
          ⟨rest.answer, params :: rest.calls, out.dispatched :: rest.rounds⟩
    else
      ⟨extract_text_response current, [], []⟩

/-- Embeds `_handle_sequential_tool_execution` (lines 117-175): copies the
caller's messages and runs the round loop. `k` is the number of model
calls already made by the caller. -/
def handle_sequential_tool_execution (env : Env) (initial_response : Response)
    (base_params : ApiParams) (max_rounds : Nat) (k : Nat) : LoopOut :=
  seqLoop env base_params.system base_params.tools k max_rounds
    initial_response base_params.messages

/-- Embeds `generate_response` (lines 66-115) with `max_rounds = 2` as in the
source; `hasToolManager` is the truthiness of the `tool_manager` argument.
The answer is `none` when the direct-return branch evaluates
`response.content[0].text` on an empty content list or a leading
non-text block (an uncaught exception in the source). -/
def generate_response (env : Env) (query : String)
    (conversation_history : Option String) (tools : Option (List ToolDef))
    (hasToolManager : Bool) : Run :=
  let system := systemContent conversation_history
  let api_params := initialApiParams query system tools
  let response := env.provider 0
  if response.stop_reason == "tool_use" && hasToolManager then
    let lo := handle_sequential_tool_execution env response api_params 2 1
    ⟨some lo.answer, api_params :: lo.calls, lo.rounds⟩
  else
    match response.content.head? with
    | some (.text s) => ⟨some s, [api_params], []⟩
    | _ => ⟨none, [api_params], []⟩

/-- The tool-use blocks of a reply, in order. -/
def toolUseBlocks (response : Response) : List (String × String × ToolArgs) :=
  response.content.filterMap
    (fun b => match b with | .toolUse n i a => some (n, i, a) | _ => none)

/-- Total number of individual tool dispatches of a run. -/
def totalDispatches (r : Run) : Nat :=
  (r.rounds.map List.length).sum

/-- The (name, arguments) dispatch list of a list of content blocks: one
entry per tool-use block, in order. -/
def dispatchList (bs : List ContentBlock) : List Dispatch :=
  bs.filterMap (fun b => match b with | .toolUse n _ a => some (n, a) | _ => none)

/-- The invocation ids of a list of content blocks, in order. -/
def toolIds (bs : List ContentBlock) : List String :=
  bs.filterMap (fun b => match b with | .toolUse _ i _ => some i | _ => none)

/-- Whether the last request of a run carries no tool catalog and no
tool-choice mode. -/
def lastCallToolless (r : Run) : Bool :=
  match r.calls.getLast? with
  | some p => p.tools == none && p.tool_choice_auto == false
  | none => false

/-- Whether one request is consistent with the tool-offering policy: it
carries a non-empty catalog together with automatic tool-choice, or it
carries neither a catalog nor a tool-choice mode. -/
def catalogConsistent (p : ApiParams) : Bool :=
  match p.tools with
  | none => p.tool_choice_auto == false
  | some ts => !ts.isEmpty && p.tool_choice_auto

/-- An environment whose model reply has an empty content list and does
not request tools. -/
def envEmptyReply : Env :=
  ⟨fun _ => ⟨"end_turn", []⟩, fun _ _ => Except.ok ""⟩

/-- An environment whose model reply is a plain one-text-block answer. -/
def envPlainText : Env :=
  ⟨fun _ => ⟨"end_turn", [.text "Python is a programming language."]⟩,
   fun _ _ => Except.ok ""⟩

/-- An environment whose first reply requests three tool invocations at
once and whose second reply is plain text. -/
def envThreeTools : Env :=
  ⟨fun k =>
    if k = 0 then
      ⟨"tool_use",
       [.toolUse "search_course_content" "t1" [("query", "a")],
        .toolUse "search_course_content" "t2" [("query", "b")],
        .toolUse "search_course_content" "t3" [("query", "c")]]⟩
    else ⟨"end_turn", [.text "done"]⟩,
   fun _ _ => Except.ok "result"⟩

/-- An environment whose first reply carries an empty leading text block,
a non-empty second text block and a tool invocation, and whose tool
manager raises on every dispatch. -/
def envErrorRound : Env :=
  ⟨fun _ =>
    ⟨"tool_use",
     [.text "", .text "I found partial info",
      .toolUse "search_course_content" "t1" [("query", "a")]]⟩,
   fun _ _ => Except.error "boom"⟩

/-- An environment whose first two replies each request one tool and
whose third reply is the final text answer. -/
def envTwoRounds : Env :=
  ⟨fun k =>
    if k = 0 then
      ⟨"tool_use",
       [.text "Let me search", .toolUse "search_course_content" "t1" [("query", "python")]]⟩
    else if k = 1 then
      ⟨"tool_use", [.toolUse "get_course_outline" "t2" [("course_name", "Python")]]⟩
    else ⟨"end_turn", [.text "final answer"]⟩,
   fun _ _ => Except.ok "tool output"⟩

/-! ### Python list aliasing model for `_handle_sequential_tool_execution`

To state the frame property of the caller's `base_params["messages"]`
list, the relevant Python heap is modelled explicitly: message lists live
in numbered cells, `list.copy()` allocates a fresh cell holding the same
value, and `list.append` mutates a cell in place. The loop of
`_handle_sequential_tool_execution` is re-run over this heap, with every
`messages.append(...)` of the source an in-place mutation. -/

/-- The heap of Python message-list objects: cell index → list value. -/
abbrev Heap := List (List Message)

/-- Python `xs.copy()`: allocate a fresh cell holding the same list value;
returns the new heap and the new cell's index. -/
def heapCopy (h : Heap) (i : Nat) : Heap × Nat :=
  (h ++ [h.getD i []], h.length)

/-- Python `xs.append(m)`: in-place mutation of cell `i`. -/
def heapAppend (h : Heap) (i : Nat) (m : Message) : Heap :=
  h.set i (h.getD i [] ++ [m])

/-- The round loop of `_handle_sequential_tool_execution`, run over the
heap model: `mref` is the cell of the local `messages` list (the copy).
Returns the answer and the final heap. -/
def seqLoopHeap (env : Env) (system : String) (btools : Option (List ToolDef))
    (mref : Nat) : Nat → Nat → Response → Heap → String × Heap
  | _, 0, current, h => (extract_text_response current, h)
  | k, remaining + 1, current, h =>
    if has_tool_use current then
      let h1 := heapAppend h mref ⟨"assistant", .blocks current.content⟩
      let out := execute_tools_for_response env current
      match out.error with
      | some e => (handle_tool_error e current, h1)
      | none =>
        let h2 := heapAppend h1 mref ⟨"user", .toolResults out.results⟩
        if remaining = 0 then
          let final := env.provider k
          (extract_text_response final, h2)
        else
          let next := env.provider k
          seqLoopHeap env system btools mref (k + 1) remaining next h2
    else
      (extract_text_response current, h)

/-- Embeds `_handle_sequential_tool_execution` over the heap model:
`messages = base_params["messages"].copy()` allocates a fresh cell, and
the loop mutates only that cell. `mref` is the cell the caller's
`base_params["messages"]` points to. -/
def handle_sequential_heap (env : Env) (initial_response : Response)
    (h : Heap) (mref : Nat) (system : String) (btools : Option (List ToolDef))
    (max_rounds : Nat) (k : Nat) : String × Heap :=
  seqLoopHeap env system btools (heapCopy h mref).2 k max_rounds
    initial_response (heapCopy h mref).1

/-! ### Search Capability (spec-modelled)

`search_tools.py` is not among the sources; only its test suite
(`backend/tests/test_course_search_tool.py`) is. The capability is
modelled from the spec, section 4.2. -/

/-- The retrieval collaborator's result for one search: matching
passages (text with optional course title and lesson number), or an
error. Mirrors `vector_store.SearchResults` as used by the tests. -/
structure SearchResults where
  documents : List String
  metadata : List (Option String × Option Nat)
  error : Option String
  deriving DecidableEq, Repr

/-- An evidentiary source recorded by the capability: display text and
optional url. -/
structure Source where
  text : String
  url : Option String
  deriving DecidableEq, Repr

/-- Modelled from the spec: the header of one formatted passage,
`[<course title> - Lesson <n>]` with the lesson suffix omitted when the
passage has no lesson number and `unknown` when course metadata is
absent (spec section 4.2, non-empty outcome). The bracketless header
content doubles as the source display text. -/
def passageHeaderContent (courseTitle : Option String) (lessonNumber : Option Nat) : String :=
  (match courseTitle with | some c => c | none => "unknown") ++
    (match lessonNumber with | some n => " - Lesson " ++ toString n | none => "")

/-- Modelled from the spec: the empty-outcome message of the Search
Capability, naming which filters were active — four variants (spec
section 4.2, empty outcome). -/
def emptyResultMessage (course_name : Option String) (lesson_number : Option Nat) : String :=
  "No relevant content found" ++
    (match course_name with | some c => " in course '" ++ c ++ "'" | none => "") ++
    (match lesson_number with | some n => " in lesson " ++ toString n | none => "") ++
    "."

/-- Modelled from the spec: behavior of `CourseSearchTool.execute` (spec section 4.2;
source file `search_tools.py` missing from the sources). Given the
collaborator's results for (query, course filter, lesson filter) and the
lesson-link lookup, returns the tool's textual result and the recorded
evidentiary sources (which replace the previous execution's). Error
outcome: the collaborator's message verbatim, zero sources. Empty
outcome: the filter-naming message, zero sources. Non-empty outcome: one
bracketed header plus passage text per match, blank-line separated, one
source per passage. -/
def searchExecute (results : SearchResults)
    (course_name : Option String) (lesson_number : Option Nat)
    (lessonLink : String → Nat → Option String) : String × List Source :=
  match results.error with
  | some e => (e, [])
  | none =>
    if results.documents.isEmpty then
      (emptyResultMessage course_name lesson_number, [])
    else
      let paired := results.documents.zip results.metadata
      let formatted := paired.map (fun (doc, meta) =>
        "[" ++ passageHeaderContent meta.1 meta.2 ++ "]\n" ++ doc)
      let sources := paired.map (fun (_, meta) =>
        ({ text := passageHeaderContent meta.1 meta.2,
           url := match meta.1, meta.2 with
             | some c, some n => lessonLink c n
             | _, _ => none } : Source))
      (String.intercalate "\n\n" formatted, sources)

/-! ## Helper lemmas -/

theorem makeApiCallParams_system (m : List Message) (s : String)
    (t : Option (List ToolDef)) : (makeApiCallParams m s t).system = s := by
  unfold makeApiCallParams; split <;> rfl

theorem makeApiCallParams_messages (m : List Message) (s : String)
    (t : Option (List ToolDef)) : (makeApiCallParams m s t).messages = m := by
  unfold makeApiCallParams; split <;> rfl

theorem initialApiParams_system (q : String) (s : String)
    (t : Option (List ToolDef)) : (initialApiParams q s t).system = s := by
  unfold initialApiParams; split <;> rfl

theorem makeApiCallParams_consistent (m : List Message) (s : String)
    (t : Option (List ToolDef)) :
    catalogConsistent (makeApiCallParams m s t) = true := by
  unfold makeApiCallParams toolsTruthy catalogConsistent
  cases t with
  | none => simp
  | some ts => cases ts <;> simp

theorem initialApiParams_consistent (q : String) (s : String)
    (t : Option (List ToolDef)) :
    catalogConsistent (initialApiParams q s t) = true := by
  unfold initialApiParams toolsTruthy catalogConsistent
  cases t with
  | none => simp
  | some ts => cases ts <;> simp

/-- Every request built by the round loop satisfies a predicate as soon
as every output of `makeApiCallParams` at the loop's system string
does. -/
theorem seqLoop_calls_all (env : Env) (sys : String) (bt : Option (List ToolDef))
    (P : ApiParams → Bool)
    (hP : ∀ m t, P (makeApiCallParams m sys t) = true) :
    ∀ remaining k cur msgs,
      ((seqLoop env sys bt k remaining cur msgs).calls).all P = true := by
  intro remaining
  induction remaining with
  | zero => intro k cur msgs; rfl
  | succ n ih =>
    intro k cur msgs
    unfold seqLoop
    by_cases h : has_tool_use cur
    · simp only [h, if_true]
      cases hE : (execute_tools_for_response env cur).error with
      | some e => simp
      | none =>
        simp only
        by_cases hn : n = 0
        · subst hn; simp [hP]
        · simp [hn, hP, List.all_cons, ih]
    · simp [h]

/-- Every request of a full run satisfies a predicate as soon as the two
request builders always do, at the run's system string. -/
theorem generate_response_calls_all (env : Env) (q : String)
    (hist : Option String) (tools : Option (List ToolDef)) (tm : Bool)
    (P : ApiParams → Bool)
    (h1 : P (initialApiParams q (systemContent hist) tools) = true)
    (h2 : ∀ m t, P (makeApiCallParams m (systemContent hist) t) = true) :
    ((generate_response env q hist tools tm).calls).all P = true := by
  unfold generate_response handle_sequential_tool_execution
  by_cases hc : (env.provider 0).stop_reason == "tool_use" && tm
  · simp only [hc, if_true, List.all_cons]
    rw [initialApiParams_system]
    simp [h1, seqLoop_calls_all env _ _ P h2]
  · simp only [Bool.not_eq_true] at hc
    simp only [hc, if_false]
    cases hh : (env.provider 0).content.head? with
    | none => simp [h1]
    | some b => cases b <;> simp [h1]

/-! ## Claim theorems -/

/-- C6: every model request built by the engine (the initial one of
`generate_response` and the per-round ones of `_make_api_call` alike)
includes the tool catalog together with automatic tool-choice exactly
when the supplied catalog is non-empty; when the catalog is absent or
empty, the request carries neither a `tools` field nor a tool-choice
mode; and every request of any full run is consistent with this
policy. -/
theorem C6_tool_catalog_iff_nonempty (q sys : String) (msgs : List Message)
    (tools : Option (List ToolDef)) :
    ((initialApiParams q sys tools).tools ≠ none ↔ ∃ ts, tools = some ts ∧ ts ≠ []) ∧
    ((initialApiParams q sys tools).tool_choice_auto = true ↔ ∃ ts, tools = some ts ∧ ts ≠ []) ∧
    ((initialApiParams q sys tools).tools = tools ∨ (initialApiParams q sys tools).tools = none) ∧
    ((makeApiCallParams msgs sys tools).tools ≠ none ↔ ∃ ts, tools = some ts ∧ ts ≠ []) ∧
    ((makeApiCallParams msgs sys tools).tool_choice_auto = true ↔ ∃ ts, tools = some ts ∧ ts ≠ []) ∧
    ((makeApiCallParams msgs sys tools).tools = tools ∨ (makeApiCallParams msgs sys tools).tools = none) ∧
    (∀ env hist tm, ((generate_response env q hist tools tm).calls).all catalogConsistent = true) := by
  refine ⟨?_, ?_, ?_, ?_, ?_, ?_, ?_⟩
  · unfold initialApiParams toolsTruthy
    cases tools with
    | none => simp
    | some ts => cases ts <;> simp
  · unfold initialApiParams toolsTruthy
    cases tools with
    | none => simp
    | some ts => cases ts <;> simp
  · unfold initialApiParams
    split
    · exact Or.inl rfl
    · exact Or.inr rfl
  · unfold makeApiCallParams toolsTruthy
    cases tools with
    | none => simp
    | some ts => cases ts <;> simp
  · unfold makeApiCallParams toolsTruthy
    cases tools with
    | none => simp
    | some ts => cases ts <;> simp
  · unfold makeApiCallParams
    split
    · exact Or.inl rfl
    · exact Or.inr rfl
  · intro env hist tm
    exact generate_response_calls_all env q hist tools tm catalogConsistent
      (initialApiParams_consistent _ _ _) (fun m t => makeApiCallParams_consistent m _ t)

/-- C8: the system instructions of every model request of a query equal
the fixed static instruction block when no prior-conversation summary is
supplied or the summary is empty, and equal that block followed by the
summary otherwise; the same system string is used unchanged on every
call of the run. -/
theorem C8_system_instructions (env : Env) (q : String) (hist : Option String)
    (tools : Option (List ToolDef)) (tm : Bool) :
    (((generate_response env q hist tools tm).calls).all
        (fun p => p.system == systemContent hist) = true) ∧
    systemContent none = SYSTEM_PROMPT ∧
    systemContent (some "") = SYSTEM_PROMPT ∧
    (∀ h : String, h ≠ "" →
      systemContent (some h) = SYSTEM_PROMPT ++ "\n\nPrevious conversation:\n" ++ h) := by
  refine ⟨?_, rfl, rfl, ?_⟩
  · exact generate_response_calls_all env q hist tools tm _
      (by rw [beq_iff_eq]; exact initialApiParams_system _ _ _)
      (fun m t => by rw [beq_iff_eq]; exact makeApiCallParams_system _ _ _)
  · intro h hh
    unfold systemContent
    simp [hh]

/-- Witness for C8 at a concrete run with a non-empty history. -/
theorem C8_system_instructions_witness :
    (((generate_response envPlainText "What is Python?" (some "Prior chat") none false).calls).all
        (fun p => p.system == systemContent (some "Prior chat")) = true) ∧
    systemContent (some "Prior chat") =
      SYSTEM_PROMPT ++ "\n\nPrevious conversation:\n" ++ "Prior chat" :=
  ⟨(C8_system_instructions envPlainText "What is Python?" (some "Prior chat") none false).1,
   (C8_system_instructions envPlainText "What is Python?" (some "Prior chat") none false).2.2.2
     "Prior chat" (by decide)⟩

/-- When the reply does not lead to the sequential handler and tool
execution path, the round loop is a no-op wherever the reply requests no
tools. -/
theorem seqLoop_of_not_tool_use (env : Env) (sys : String)
    (bt : Option (List ToolDef)) (k remaining : Nat) (cur : Response)
    (msgs : List Message) (h : has_tool_use cur = false) :
    seqLoop env sys bt k remaining cur msgs = ⟨extract_text_response cur, [], []⟩ := by
  cases remaining with
  | zero => rfl
  | succ n => unfold seqLoop; simp [h]

/-- The round loop performs at most `remaining` tool-dispatch rounds. -/
theorem seqLoop_rounds_le (env : Env) (sys : String) (bt : Option (List ToolDef)) :
    ∀ remaining k cur msgs,
      ((seqLoop env sys bt k remaining cur msgs).rounds).length ≤ remaining := by
  intro remaining
  induction remaining with
  | zero => intro k cur msgs; simp [seqLoop]
  | succ n ih =>
    intro k cur msgs
    unfold seqLoop
    by_cases h : has_tool_use cur
    · simp only [h, if_true]
      cases hE : (execute_tools_for_response env cur).error with
      | some e => simp
      | none =>
        simp only
        by_cases hn : n = 0
        · subst hn; simp
        · simp only [hn, if_false, List.length_cons]
          exact Nat.succ_le_succ (ih _ _ _)
    · simp [h]

/-- C9: whenever the direct-return branch of `generate_response` is taken
(the reply's stop reason is not "tool_use", or no tool manager was
supplied), the engine evaluates `response.content[0].text` with no
sentinel fallback: it fails (raises) when the content sequence is empty
or its first block is a tool-use block, and returns the first block's
text only when that block is a text block. -/
theorem C9_direct_branch_raises (env : Env) (q : String) (hist : Option String)
    (tools : Option (List ToolDef)) (tm : Bool)
    (hd : ¬((env.provider 0).stop_reason = "tool_use" ∧ tm = true)) :
    ((env.provider 0).content = [] →
      (generate_response env q hist tools tm).answer = none) ∧
    (∀ n i a rest, (env.provider 0).content = ContentBlock.toolUse n i a :: rest →
      (generate_response env q hist tools tm).answer = none) ∧
    (∀ s rest, (env.provider 0).content = ContentBlock.text s :: rest →
      (generate_response env q hist tools tm).answer = some s) := by
  have hcond : ((env.provider 0).stop_reason == "tool_use" && tm) = false := by
    by_cases htm : tm = true
    · have hs : (env.provider 0).stop_reason ≠ "tool_use" := fun hs => hd ⟨hs, htm⟩
      simp [htm, hs]
    · simp only [Bool.not_eq_true] at htm
      simp [htm]
  refine ⟨?_, ?_, ?_⟩
  · intro hc
    simp [generate_response, hcond, hc]
  · intro n i a rest hc
    simp [generate_response, hcond, hc]
  · intro s rest hc
    simp [generate_response, hcond, hc]

/-- Witness for C9: a reply with stop reason "end_turn" and an empty
content list makes the direct branch fail rather than return the
sentinel. -/
theorem C9_direct_branch_raises_witness :
    (generate_response envEmptyReply "What is Python?" none none false).answer = none :=
  (C9_direct_branch_raises envEmptyReply "What is Python?" none none false
    (by intro h; exact absurd h.2 (by decide))).1 rfl

/-- Counterexample to C4 as stated: a reply with no tool-invocation
blocks and an empty content list reaches the direct branch, where
`generate_response` raises (no value is returned) instead of returning
the sentinel "No text response available". -/
theorem C4_counterexample_empty_reply :
    toolUseBlocks (envEmptyReply.provider 0) = [] ∧
    (generate_response envEmptyReply "What is Python?" none none false).answer = none ∧
    (generate_response envEmptyReply "What is Python?" none none false).answer ≠
      some "No text response available" := by
  have h : (generate_response envEmptyReply "What is Python?" none none false).answer = none := rfl
  refine ⟨rfl, h, ?_⟩
  rw [h]
  simp

/-- C4 as amended: for every query whose first reply contains no
tool-invocation blocks, exactly one model call occurs; when the reply
reaches the sequential handler (stop reason "tool_use" with a tool
manager supplied), the first text block's content is returned, or the
sentinel when no text block exists; in the direct branch the first text
block's content is returned when the content list is non-empty, and the
engine raises (returns nothing) on an empty content list. -/
theorem C4_amended_no_tool_blocks (env : Env) (q : String) (hist : Option String)
    (tools : Option (List ToolDef)) (tm : Bool)
    (hnb : toolUseBlocks (env.provider 0) = []) :
    (generate_response env q hist tools tm).calls.length = 1 ∧
    ((env.provider 0).stop_reason = "tool_use" ∧ tm = true →
      (generate_response env q hist tools tm).answer =
        some (extract_text_response (env.provider 0))) ∧
    (¬((env.provider 0).stop_reason = "tool_use" ∧ tm = true) →
      (generate_response env q hist tools tm).answer = firstText (env.provider 0)) := by
  have hall : ∀ b ∈ (env.provider 0).content, ∃ s, b = ContentBlock.text s := by
    intro b hb
    unfold toolUseBlocks at hnb
    have hnone := List.filterMap_eq_nil_iff.mp hnb b hb
    cases b with
    | text s => exact ⟨s, rfl⟩
    | toolUse n i a => simp at hnone
  have htu : has_tool_use (env.provider 0) = false := by
    unfold has_tool_use
    have hany : ((env.provider 0).content.any
        (fun b => match b with | .toolUse _ _ _ => true | _ => false)) = false := by
      rw [List.any_eq_false]
      intro b hb
      obtain ⟨s, rfl⟩ := hall b hb
      simp
    rw [hany]
    simp
  by_cases hc : ((env.provider 0).stop_reason == "tool_use" && tm) = true
  · have hrun : generate_response env q hist tools tm =
        ⟨some (extract_text_response (env.provider 0)),
         [initialApiParams q (systemContent hist) tools], []⟩ := by
      simp [generate_response, handle_sequential_tool_execution, hc,
        seqLoop_of_not_tool_use env _ _ 1 2 _ _ htu]
    have hstop : (env.provider 0).stop_reason = "tool_use" ∧ tm = true := by
      simpa [Bool.and_eq_true, beq_iff_eq] using hc
    exact ⟨by simp [hrun], fun _ => by simp [hrun], fun hn => absurd hstop hn⟩
  · have hcond : ((env.provider 0).stop_reason == "tool_use" && tm) = false := by
      simpa using hc
    refine ⟨?_, fun hy => absurd (by simp [hy.1, hy.2]) hc, fun _ => ?_⟩
    · cases hh : (env.provider 0).content with
      | nil => simp [generate_response, hcond, hh]
      | cons b rest =>
        obtain ⟨s, rfl⟩ := hall b (hh ▸ List.mem_cons_self b rest)
        simp [generate_response, hcond, hh]
    · cases hh : (env.provider 0).content with
      | nil => simp [generate_response, hcond, hh, firstText]
      | cons b rest =>
        obtain ⟨s, rfl⟩ := hall b (hh ▸ List.mem_cons_self b rest)
        simp [generate_response, hcond, hh, firstText]

/-- Witness for C4 as amended: a plain one-text-block reply taken through
the direct branch. -/
theorem C4_amended_no_tool_blocks_witness :
    (generate_response envPlainText "What is Python?" none none false).calls.length = 1 ∧
    (generate_response envPlainText "What is Python?" none none false).answer =
      firstText (envPlainText.provider 0) :=
  ⟨(C4_amended_no_tool_blocks envPlainText "What is Python?" none none false rfl).1,
   (C4_amended_no_tool_blocks envPlainText "What is Python?" none none false rfl).2.2
     (by intro h; exact absurd h.2 (by decide))⟩

/-- Counterexample to C3 as stated: a first reply carrying three
tool-invocation blocks leads to three individual tool dispatches, which
exceeds `max_rounds = 2`. -/
theorem C3_counterexample_three_dispatches :
    totalDispatches (generate_response envThreeTools "q" none (some ["tooldef"]) true) = 3 ∧
    2 < totalDispatches (generate_response envThreeTools "q" none (some ["tooldef"]) true) := by
  have h : totalDispatches (generate_response envThreeTools "q" none (some ["tooldef"]) true) = 3 := rfl
  exact ⟨h, by rw [h]; omega⟩

/-- C3 as amended: the number of tool-dispatch rounds never exceeds
`max_rounds = 2` (while within one round every tool-invocation block of
the reply is dispatched, so the count of individual dispatches is not
bounded by `max_rounds`). -/
theorem C3_amended_rounds_bounded (env : Env) (q : String) (hist : Option String)
    (tools : Option (List ToolDef)) (tm : Bool) :
    (generate_response env q hist tools tm).rounds.length ≤ 2 := by
  unfold generate_response handle_sequential_tool_execution
  by_cases hc : ((env.provider 0).stop_reason == "tool_use" && tm) = true
  · simp only [hc, if_true]
    exact seqLoop_rounds_le env _ _ 2 1 _ _
  · simp only [Bool.not_eq_true] at hc
    simp only [hc, Bool.false_eq_true, if_false]
    cases hh : (env.provider 0).content.head? with
    | none => simp
    | some b => cases b <;> simp

/-- On an error-free pass, the dispatch loop produces one result per
tool-use block with matching ids, dispatches exactly the tool-use blocks
in order, and its result count equals the tool-use block count. -/
theorem executeToolsLoop_ok (env : Env) : ∀ (bs : List ContentBlock)
    (acc : List ToolResult) (ds : List Dispatch),
    (executeToolsLoop env bs acc ds).error = none →
    ((executeToolsLoop env bs acc ds).results.map ToolResult.tool_use_id
        = acc.reverse.map ToolResult.tool_use_id ++ toolIds bs) ∧
    ((executeToolsLoop env bs acc ds).dispatched = ds.reverse ++ dispatchList bs) ∧
    ((executeToolsLoop env bs acc ds).results.length = acc.length + (toolIds bs).length) := by
  intro bs
  induction bs with
  | nil => intro acc ds h; simp [executeToolsLoop, toolIds, dispatchList]
  | cons b rest ih =>
    intro acc ds h
    cases b with
    | text s =>
      have hres := ih acc ds h
      simpa [executeToolsLoop, toolIds, dispatchList] using hres
    | toolUse n i a =>
      cases hx : env.execute_tool n a with
      | error e =>
        rw [executeToolsLoop] at h
        simp [hx] at h
      | ok v =>
        have h2 : (executeToolsLoop env rest (⟨i, v⟩ :: acc) ((n, a) :: ds)).error = none := by
          rw [executeToolsLoop] at h
          simpa [hx] using h
        obtain ⟨r1, r2, r3⟩ := ih (⟨i, v⟩ :: acc) ((n, a) :: ds) h2
        refine ⟨?_, ?_, ?_⟩
        · rw [executeToolsLoop]
          simp only [hx]
          rw [r1]
          simp [toolIds]
        · rw [executeToolsLoop]
          simp only [hx]
          rw [r2]
          simp [dispatchList]
        · rw [executeToolsLoop]
          simp only [hx]
          rw [r3]
          simp [toolIds]
          omega

/-- On a failing pass, the dispatch loop dispatched exactly the tool-use
blocks up to and including the first failing one: every earlier dispatch
succeeded, the last dispatch raised the returned error, and no later
invocation block was executed. -/
theorem executeToolsLoop_error (env : Env) : ∀ (bs : List ContentBlock)
    (acc : List ToolResult) (ds : List Dispatch) (e : String),
    (executeToolsLoop env bs acc ds).error = some e →
    ∃ pre d post,
      dispatchList bs = pre ++ d :: post ∧
      (∀ x ∈ pre, ∃ v, env.execute_tool x.1 x.2 = Except.ok v) ∧
      env.execute_tool d.1 d.2 = Except.error e ∧
      (executeToolsLoop env bs acc ds).dispatched = ds.reverse ++ pre ++ [d] := by
  intro bs
  induction bs with
  | nil => intro acc ds e h; simp [executeToolsLoop] at h
  | cons b rest ih =>
    intro acc ds e h
    cases b with
    | text s =>
      obtain ⟨pre, d, post, h1, h2, h3, h4⟩ := ih acc ds e h
      exact ⟨pre, d, post, by simpa [dispatchList] using h1, h2, h3,
        by simpa [executeToolsLoop] using h4⟩
    | toolUse n i a =>
      cases hx : env.execute_tool n a with
      | error e0 =>
        have he : e0 = e := by
          rw [executeToolsLoop] at h
          simpa [hx] using h
        subst he
        refine ⟨[], (n, a), dispatchList rest, by simp [dispatchList], by simp, hx, ?_⟩
        rw [executeToolsLoop]
        simp [hx]
      | ok v =>
        have h2 : (executeToolsLoop env rest (⟨i, v⟩ :: acc) ((n, a) :: ds)).error = some e := by
          rw [executeToolsLoop] at h
          simpa [hx] using h
        obtain ⟨pre, d, post, hh1, hh2, hh3, hh4⟩ := ih (⟨i, v⟩ :: acc) ((n, a) :: ds) e h2
        refine ⟨(n, a) :: pre, d, post, ?_, ?_, hh3, ?_⟩
        · simp [dispatchList] at hh1 ⊢
          rw [hh1]
        · intro x hx2
          rcases List.mem_cons.mp hx2 with hx3 | hx3
          · subst hx3; exact ⟨v, hx⟩
          · exact hh2 x hx3
        · rw [executeToolsLoop]
          simp only [hx]
          rw [hh4]
          simp

/-- The invocation ids of the tool-use blocks, two phrasings. -/
theorem toolUseBlocksList_ids (bs : List ContentBlock) :
    (bs.filterMap (fun b => match b with
      | ContentBlock.toolUse n i a => some (n, i, a) | _ => none)).map (fun x => x.2.1)
      = toolIds bs := by
  induction bs with
  | nil => rfl
  | cons b rest ih => cases b <;> simp [toolIds, ih]

/-- The (name, argument) pairs of the tool-use blocks, two phrasings. -/
theorem toolUseBlocksList_dispatches (bs : List ContentBlock) :
    (bs.filterMap (fun b => match b with
      | ContentBlock.toolUse n i a => some (n, i, a) | _ => none)).map (fun x => (x.1, x.2.2))
      = dispatchList bs := by
  induction bs with
  | nil => rfl
  | cons b rest ih => cases b <;> simp [dispatchList, ih]

/-- One non-final round of the loop: on tool use and error-free dispatch,
the engine appends the assistant turn and the tool-result turn, logs a
request carrying the stored catalog, and recurses. -/
theorem seqLoop_step_continue (env : Env) (sys : String) (bt : Option (List ToolDef))
    (k m n : Nat) (cur : Response) (msgs : List Message)
    (hm : m = n + 1) (hn : n ≠ 0)
    (h : has_tool_use cur = true)
    (he : (execute_tools_for_response env cur).error = none) :
    seqLoop env sys bt k m cur msgs =
      ⟨(seqLoop env sys bt (k + 1) n (env.provider k)
          (msgs ++ [⟨"assistant", MessageContent.blocks cur.content⟩,
            ⟨"user", MessageContent.toolResults (execute_tools_for_response env cur).results⟩])).answer,
       makeApiCallParams
          (msgs ++ [⟨"assistant", MessageContent.blocks cur.content⟩,
            ⟨"user", MessageContent.toolResults (execute_tools_for_response env cur).results⟩]) sys bt
        :: (seqLoop env sys bt (k + 1) n (env.provider k)
          (msgs ++ [⟨"assistant", MessageContent.blocks cur.content⟩,
            ⟨"user", MessageContent.toolResults (execute_tools_for_response env cur).results⟩])).calls,
       (execute_tools_for_response env cur).dispatched
        :: (seqLoop env sys bt (k + 1) n (env.provider k)
          (msgs ++ [⟨"assistant", MessageContent.blocks cur.content⟩,
            ⟨"user", MessageContent.toolResults (execute_tools_for_response env cur).results⟩])).rounds⟩ := by
  subst hm
  conv_lhs => unfold seqLoop
  simp [h, he, hn]

/-- The final round of the loop: on tool use and error-free dispatch in
the last allowed round, the engine appends both turns, makes one final
call with the catalog withheld, and returns that reply's extracted
text. -/
theorem seqLoop_step_final (env : Env) (sys : String) (bt : Option (List ToolDef))
    (k m : Nat) (cur : Response) (msgs : List Message)
    (hm : m = 1)
    (h : has_tool_use cur = true)
    (he : (execute_tools_for_response env cur).error = none) :
    seqLoop env sys bt k m cur msgs =
      ⟨extract_text_response (env.provider k),
       [makeApiCallParams
          (msgs ++ [⟨"assistant", MessageContent.blocks cur.content⟩,
            ⟨"user", MessageContent.toolResults (execute_tools_for_response env cur).results⟩]) sys none],
       [(execute_tools_for_response env cur).dispatched]⟩ := by
  subst hm
  show seqLoop env sys bt k (0 + 1) cur msgs = _
  conv_lhs => unfold seqLoop
  simp [h, he]

/-- A failing round of the loop: the engine returns the error-handling
answer, makes no further model calls, and logs the partial dispatch
group. -/
theorem seqLoop_step_error (env : Env) (sys : String) (bt : Option (List ToolDef))
    (k m n : Nat) (cur : Response) (msgs : List Message) (e : String)
    (hm : m = n + 1)
    (h : has_tool_use cur = true)
    (he : (execute_tools_for_response env cur).error = some e) :
    seqLoop env sys bt k m cur msgs =
      ⟨handle_tool_error e cur, [], [(execute_tools_for_response env cur).dispatched]⟩ := by
  subst hm
  conv_lhs => unfold seqLoop
  simp [h, he]

/-- C5: for every reply containing tool-invocation blocks whose round
dispatches without error, the engine dispatches every tool-invocation
block of the reply in the model's order, produces exactly one result
entry per invocation block carrying its invocation id, appends the full
reply content as one assistant turn followed by exactly one tool-result
turn, and logs the round's dispatch group. -/
theorem C5_round_turn_structure (env : Env) (r : Response) (sys : String)
    (bt : Option (List ToolDef)) (k remaining : Nat) (msgs : List Message)
    (htool : has_tool_use r = true)
    (herr : (execute_tools_for_response env r).error = none) :
    ((execute_tools_for_response env r).results.map ToolResult.tool_use_id
        = (toolUseBlocks r).map (fun x => x.2.1)) ∧
    ((execute_tools_for_response env r).dispatched
        = (toolUseBlocks r).map (fun x => (x.1, x.2.2))) ∧
    ((execute_tools_for_response env r).results.length = (toolUseBlocks r).length) ∧
    (∃ p, ((seqLoop env sys bt k (remaining + 1) r msgs).calls).head? = some p ∧
       p.messages = msgs ++ [⟨"assistant", MessageContent.blocks r.content⟩,
         ⟨"user", MessageContent.toolResults (execute_tools_for_response env r).results⟩]) ∧
    (((seqLoop env sys bt k (remaining + 1) r msgs).rounds).head? =
       some (execute_tools_for_response env r).dispatched) := by
  obtain ⟨r1, r2, r3⟩ := executeToolsLoop_ok env r.content [] [] herr
  have hids : (execute_tools_for_response env r).results.map ToolResult.tool_use_id
      = (toolUseBlocks r).map (fun x => x.2.1) := by
    unfold execute_tools_for_response
    rw [r1]
    simp [toolUseBlocks, toolUseBlocksList_ids]
  have hdisp : (execute_tools_for_response env r).dispatched
      = (toolUseBlocks r).map (fun x => (x.1, x.2.2)) := by
    unfold execute_tools_for_response
    rw [r2]
    simp [toolUseBlocks, toolUseBlocksList_dispatches]
  have hlen : (execute_tools_for_response env r).results.length
      = (toolUseBlocks r).length := by
    have := congrArg List.length hids
    simpa using this
  refine ⟨hids, hdisp, hlen, ?_, ?_⟩
  · by_cases hr : remaining = 0
    · subst hr
      rw [seqLoop_step_final env sys bt k (0 + 1) r msgs rfl htool herr]
      exact ⟨_, rfl, makeApiCallParams_messages _ _ _⟩
    · rw [seqLoop_step_continue env sys bt k (remaining + 1) remaining r msgs rfl hr htool herr]
      exact ⟨_, rfl, makeApiCallParams_messages _ _ _⟩
  · by_cases hr : remaining = 0
    · subst hr
      rw [seqLoop_step_final env sys bt k (0 + 1) r msgs rfl htool herr]
      rfl
    · rw [seqLoop_step_continue env sys bt k (remaining + 1) remaining r msgs rfl hr htool herr]
      rfl

/-- Witness for C5 at the first round of a concrete two-round run. -/
theorem C5_round_turn_structure_witness :
    ((execute_tools_for_response envTwoRounds (envTwoRounds.provider 0)).results.map
        ToolResult.tool_use_id
      = (toolUseBlocks (envTwoRounds.provider 0)).map (fun x => x.2.1)) ∧
    (((seqLoop envTwoRounds "sys" none 1 2 (envTwoRounds.provider 0) []).rounds).head? =
       some (execute_tools_for_response envTwoRounds (envTwoRounds.provider 0)).dispatched) :=
  ⟨(C5_round_turn_structure envTwoRounds (envTwoRounds.provider 0) "sys" none 1 1 []
      (by decide) rfl).1,
   (C5_round_turn_structure envTwoRounds (envTwoRounds.provider 0) "sys" none 1 1 []
      (by decide) rfl).2.2.2.2⟩

/-- Counterexample to C2 as stated: in a round whose dispatch raises, a
reply whose first text block is empty but which contains a later
non-empty text block makes the engine return the fixed apology, not the
reply's text content. -/
theorem C2_counterexample_first_text_empty :
    (generate_response envErrorRound "q" none (some ["tooldef"]) true).answer =
      some "I encountered an error while searching for information. Please try rephrasing your question." ∧
    ((envErrorRound.provider 0).content.any
      (fun b => match b with | ContentBlock.text s => s != "" | _ => false)) = true ∧
    (generate_response envErrorRound "q" none (some ["tooldef"]) true).answer ≠
      some "I found partial info" := by
  have h : (generate_response envErrorRound "q" none (some ["tooldef"]) true).answer =
      some "I encountered an error while searching for information. Please try rephrasing your question." := rfl
  refine ⟨h, rfl, ?_⟩
  rw [h]
  simp

/-- C2 as amended: when some dispatch of a round raises, the engine stops
at the failing invocation (all earlier ones succeeded, none after it is
executed), makes no further model calls, and returns the reply's first
text block's content when that content is non-empty and differs from the
sentinel, else the fixed apology; the returned string does not depend on
the raised exception's message. -/
theorem C2_amended_error_round (env : Env) (r : Response) (e : String)
    (sys : String) (bt : Option (List ToolDef)) (k remaining : Nat)
    (msgs : List Message)
    (htool : has_tool_use r = true)
    (herr : (execute_tools_for_response env r).error = some e) :
    (∃ pre d post,
       dispatchList r.content = pre ++ d :: post ∧
       (∀ x ∈ pre, ∃ v, env.execute_tool x.1 x.2 = Except.ok v) ∧
       env.execute_tool d.1 d.2 = Except.error e ∧
       (execute_tools_for_response env r).dispatched = pre ++ [d]) ∧
    ((seqLoop env sys bt k (remaining + 1) r msgs).calls = []) ∧
    ((seqLoop env sys bt k (remaining + 1) r msgs).answer = handle_tool_error e r) ∧
    (∀ e2, handle_tool_error e2 r = handle_tool_error e r) ∧
    (∀ t, firstText r = some t → t ≠ "" → t ≠ "No text response available" →
       handle_tool_error e r = t) ∧
    ((firstText r = none ∨ firstText r = some "" ∨
        firstText r = some "No text response available") →
       handle_tool_error e r =
         "I encountered an error while searching for information. Please try rephrasing your question.") := by
  refine ⟨?_, ?_, ?_, fun e2 => rfl, ?_, ?_⟩
  · obtain ⟨pre, d, post, h1, h2, h3, h4⟩ :=
      executeToolsLoop_error env r.content [] [] e herr
    exact ⟨pre, d, post, h1, h2, h3, by simpa [execute_tools_for_response] using h4⟩
  · rw [seqLoop_step_error env sys bt k (remaining + 1) remaining r msgs e rfl htool herr]
  · rw [seqLoop_step_error env sys bt k (remaining + 1) remaining r msgs e rfl htool herr]
  · intro t ht hne hns
    unfold handle_tool_error extract_text_response
    rw [ht]
    simp [hne, hns]
  · intro hcase
    unfold handle_tool_error extract_text_response
    rcases hcase with hc | hc | hc <;> rw [hc] <;> simp

/-- Witness for C2 as amended at a concrete failing round. -/
theorem C2_amended_error_round_witness :
    ((seqLoop envErrorRound "sys" none 1 2 (envErrorRound.provider 0) []).calls = []) ∧
    ((seqLoop envErrorRound "sys" none 1 2 (envErrorRound.provider 0) []).answer =
       handle_tool_error "boom" (envErrorRound.provider 0)) :=
  ⟨(C2_amended_error_round envErrorRound (envErrorRound.provider 0) "boom" "sys" none 1 1 []
      (by decide) rfl).2.1,
   (C2_amended_error_round envErrorRound (envErrorRound.provider 0) "boom" "sys" none 1 1 []
      (by decide) rfl).2.2.1⟩

/-- C1: when the model requests at least one tool in each of the first
two rounds (the default `max_rounds = 2`) and every dispatch succeeds,
`generate_response` performs exactly 2 tool-dispatch rounds and exactly
3 model calls, the final call carries no tool catalog and no tool-choice
mode, and the first text block of the final reply is returned. -/
theorem C1_all_rounds_tool_use (env : Env) (q : String) (hist : Option String)
    (tools : Option (List ToolDef)) (t : String)
    (h0 : has_tool_use (env.provider 0) = true)
    (e0 : (execute_tools_for_response env (env.provider 0)).error = none)
    (h1 : has_tool_use (env.provider 1) = true)
    (e1 : (execute_tools_for_response env (env.provider 1)).error = none)
    (ht : firstText (env.provider 2) = some t) :
    (generate_response env q hist tools true).calls.length = 3 ∧
    (generate_response env q hist tools true).rounds.length = 2 ∧
    lastCallToolless (generate_response env q hist tools true) = true ∧
    (generate_response env q hist tools true).answer = some t := by
  have hstop : ((env.provider 0).stop_reason == "tool_use") = true := by
    have h := h0
    unfold has_tool_use at h
    exact (Bool.and_eq_true _ _ |>.mp h).1
  have hcond : ((env.provider 0).stop_reason == "tool_use" && true) = true := by
    simp [hstop]
  unfold generate_response handle_sequential_tool_execution
  simp only [hcond, if_true, initialApiParams_system]
  rw [seqLoop_step_continue env (systemContent hist)
    (initialApiParams q (systemContent hist) tools).tools 1 2 1 (env.provider 0)
    (initialApiParams q (systemContent hist) tools).messages rfl (by decide) h0 e0]
  rw [seqLoop_step_final env (systemContent hist)
    (initialApiParams q (systemContent hist) tools).tools 2 1 _ _ rfl h1 e1]
  refine ⟨rfl, rfl, ?_, ?_⟩
  · unfold lastCallToolless
    simp [makeApiCallParams, toolsTruthy]
  · unfold extract_text_response
    rw [ht]

/-- Witness for C1 at a concrete two-round environment. -/
theorem C1_all_rounds_tool_use_witness :
    (generate_response envTwoRounds "q" none (some ["tooldef"]) true).calls.length = 3 ∧
    (generate_response envTwoRounds "q" none (some ["tooldef"]) true).rounds.length = 2 ∧
    lastCallToolless (generate_response envTwoRounds "q" none (some ["tooldef"]) true) = true ∧
    (generate_response envTwoRounds "q" none (some ["tooldef"]) true).answer = some "final answer" :=
  C1_all_rounds_tool_use envTwoRounds "q" none (some ["tooldef"]) "final answer"
    (by decide) rfl (by decide) rfl rfl

/-- C7: with the collaborator reporting no error and zero matching
passages, and both a course-name filter and a lesson-number filter
active, the Search Capability returns exactly the both-filters message
and records zero evidentiary sources. -/
theorem C7_empty_outcome_both_filters (r : SearchResults) (name : String) (n : Nat)
    (link : String → Nat → Option String)
    (he : r.error = none) (hd : r.documents = []) :
    searchExecute r (some name) (some n) link =
      ("No relevant content found in course '" ++ name ++ "' in lesson "
        ++ toString n ++ ".", []) := by
  unfold searchExecute
  rw [he, hd]
  simp only [List.isEmpty_nil, if_true]
  unfold emptyResultMessage
  congr 1
  simp only [String.append_assoc]
  rw [← String.append_assoc "No relevant content found" " in course '" _]
  congr 1

/-- Witness for C7 at the concrete inputs of the repository's test
`test_search_with_no_results_and_both_filters`. -/
theorem C7_empty_outcome_both_filters_witness :
    searchExecute ⟨[], [], none⟩ (some "Course") (some 1) (fun _ _ => none) =
      ("No relevant content found in course '" ++ "Course" ++ "' in lesson "
        ++ toString 1 ++ ".", []) :=
  C7_empty_outcome_both_filters ⟨[], [], none⟩ "Course" 1 (fun _ _ => none) rfl rfl

/-- Appending to one heap cell leaves every other cell unchanged. -/
theorem heapAppend_getD_ne (h : Heap) (i j : Nat) (m : Message) (hne : j ≠ i) :
    (heapAppend h i m).getD j [] = h.getD j [] := by
  unfold heapAppend
  simp [List.getD_eq_getElem?_getD, List.getElem?_set_ne (Ne.symm hne)]

/-- The heap-model round loop mutates only the local messages cell
`mref`: every other cell is unchanged. -/
theorem seqLoopHeap_frame (env : Env) (sys : String) (bt : Option (List ToolDef))
    (mref : Nat) : ∀ remaining k cur h (j : Nat), j ≠ mref →
    ((seqLoopHeap env sys bt mref k remaining cur h).2).getD j [] = h.getD j [] := by
  intro remaining
  induction remaining with
  | zero => intro k cur h j hj; rfl
  | succ nn ih =>
    intro k cur h j hj
    unfold seqLoopHeap
    by_cases htu : has_tool_use cur
    · simp only [htu, if_true]
      cases hE : (execute_tools_for_response env cur).error with
      | some e =>
        simp [heapAppend, List.getD_eq_getElem?_getD, List.getElem?_set_ne (Ne.symm hj)]
      | none =>
        simp only
        by_cases hn : nn = 0
        · subst hn
          simp [heapAppend, List.getD_eq_getElem?_getD, List.getElem?_set_ne (Ne.symm hj)]
        · simp only [hn, if_false]
          rw [ih _ _ _ j hj, heapAppend_getD_ne _ _ _ _ hj, heapAppend_getD_ne _ _ _ _ hj]
    · simp [htu]

/-- C10: `_handle_sequential_tool_execution` leaves the caller's
`base_params["messages"]` list object unchanged: the assistant and
tool-result turns are appended only to the private copy made on entry,
so the cell the caller's reference points to holds the same turns after
the call as before it. -/
theorem C10_caller_messages_unchanged (env : Env) (r : Response) (h : Heap)
    (mref : Nat) (sys : String) (bt : Option (List ToolDef)) (mr k : Nat)
    (hv : mref < h.length) :
    ((handle_sequential_heap env r h mref sys bt mr k).2).getD mref [] =
      h.getD mref [] := by
  unfold handle_sequential_heap heapCopy
  rw [seqLoopHeap_frame env sys bt h.length mr k r _ mref (Nat.ne_of_lt hv)]
  simp [List.getD_eq_getElem?_getD, List.getElem?_append_left hv]

/-- Witness for C10 at a concrete heap with one valid messages cell. -/
theorem C10_caller_messages_unchanged_witness :
    ((handle_sequential_heap envTwoRounds (envTwoRounds.provider 0)
        [[⟨"user", MessageContent.text "q"⟩]] 0 "sys" none 2 1).2).getD 0 [] =
      [[⟨"user", MessageContent.text "q"⟩]].getD 0 [] :=
  C10_caller_messages_unchanged envTwoRounds (envTwoRounds.provider 0)
    [[⟨"user", MessageContent.text "q"⟩]] 0 "sys" none 2 1 (by decide)

end RagChatbot
